import Mathlib

set_option maxRecDepth 40000

/-!
# BoardsOnFire Python SDK — shallow embedding and verification

This file embeds the behaviourally relevant parts of the
`boardsonfire_client` Python package (files `client.py` and
`endpoints.py`) as executable Lean definitions and proves the spec's
claims about them.

Modelling conventions:
* Python dicts used as payloads become association lists
  `List (String × String)`; the validators only inspect the key set.
* The HTTP transport is a parameter: a function from the request the
  client builds to the response the remote would give.  Each endpoint
  method returns, besides its result, the list of requests it issued, so
  "number of network calls" is the length of that list.
* The paginated iterator (`list_all`) is modelled against a transport
  that holds a finite list of batches: page `i` (1-based) returns the
  `i`-th batch, and every page beyond the list returns the empty batch.
* Exceptions become an `Except` error value.  The exception classes
  themselves live in `exceptions.py`, which is not among the sources;
  only their identity (four distinct constructors) matters here.
-/

namespace BoardsOnFire

/-- `endpoints.py`: `MAX_PAGE_SIZE = 500`. -/
def MAX_PAGE_SIZE : Nat := 500

/-- A Python payload dict, as an association list of string keys/values.
The code only ever inspects the key set of a payload. -/
abbrev Dict := List (String × String)

/-- `set(data)` for a payload dict: its list of keys. -/
def dictKeys (d : Dict) : List String := d.map Prod.fst

/-- Modelled from the spec: the error taxonomy of the missing
`exceptions.py` module — `ValidationError`, `RateLimitException`
(spec: `RateLimitError`), `NotFoundException` (spec: `NotFoundError`)
and `RestClientException` (spec: `ClientError`), four distinct
exception classes each carrying a message. -/
inductive ApiError where
  | validation (msg : String)
  | rateLimit (msg : String)
  | notFound (msg : String)
  | client (msg : String)
deriving Repr, DecidableEq

/-- A value appearing in a `params` dict sent with a request:
`None`, a string, or an int. -/
inductive ParamVal where
  | vnone
  | vstr (s : String)
  | vnat (n : Nat)
deriving Repr, DecidableEq

/-- A Python `params`/keyword dict, in insertion order. -/
abbrev Params := List (String × ParamVal)

/-- The `data=` argument (request body) a method passes to the client:
a params-style dict (DataSources listing), a payload dict
(create/update), the Entities import dict
`\x7b"entity_objects": data, "delete_others": truncate\x7d`,
or a bare list of payload dicts (DataSources upsert). -/
inductive Body where
  | paramsBody (p : Params)
  | dictBody (d : Dict)
  | importBody (entity_objects : List Dict) (delete_others : Bool)
  | listBody (objs : List Dict)
deriving Repr, DecidableEq

/-- A request as handed to `BoardsOnFireClient._send_request`:
HTTP method, endpoint path, optional query params, optional body. -/
structure Request where
  method : String
  endpoint : String
  params : Option Params := Option.none
  data : Option Body := Option.none
deriving Repr, DecidableEq

/-- `ParamVal` for an `Optional[str]` argument. -/
def optStr : Option String → ParamVal
  | Option.none => ParamVal.vnone
  | some s => ParamVal.vstr s

/-! ## Transport (`client.py`, `BoardsOnFireClient._send_request`) -/

/-- What the remote returns to one `requests.request` call, as far as
`_send_request` observes it: the status code, the response headers, the
raw body text (`response.content`), and the result of attempting
`response.json()` — `Option.none` when the body is not valid JSON.
`β` is the type of the decoded JSON payload. -/
structure HttpResponse (β : Type) where
  statusCode : Nat
  headers : List (String × String)
  content : String
  jsonData : Option β
deriving Repr, DecidableEq

/-- `requests.Response.ok` (external library semantics): `True` exactly
when the status code is below 400; every 2xx status is ok. -/
def responseOk (statusCode : Nat) : Bool := statusCode < 400

/-- `client.py` `Response` dataclass: the envelope handed back to the
resource collections. -/
structure RespEnvelope (β : Type) where
  status_code : Nat
  headers : List (String × String)
  message : String := ""
  data : Option β := Option.none
deriving Repr, DecidableEq

/-- The message of the generic failure branch of `_send_request`:
an f-string interpolating the status code and the raw body. -/
def badResponseMessage (statusCode : Nat) (content : String) : String :=
  "Bad response. \n Status Code: " ++ toString statusCode ++
    ("\n  Message: " ++ content)

/-- `BoardsOnFireClient._send_request`, given the remote's response to
the single HTTP call it performs.  Mirrors `client.py` lines 88–116:
on `response.ok`, DELETE short-circuits with a payload-less envelope,
otherwise the body is JSON-decoded (failure raises
`RestClientException`); on not-ok, 429 raises `RateLimitException`,
404 raises `NotFoundException`, anything else raises
`RestClientException` with the status code and raw body in the
message. -/
def sendRequest (method : String) (resp : HttpResponse β) :
    Except ApiError (RespEnvelope β) :=
  if responseOk resp.statusCode then
    if method = "DELETE" then
      Except.ok { status_code := resp.statusCode, headers := resp.headers }
    else
      match resp.jsonData with
      | Option.none =>
          Except.error (ApiError.client "Response does not contain valid json")
      | some d =>
          Except.ok { status_code := resp.statusCode, headers := resp.headers,
                      data := some d }
  else if resp.statusCode = 429 then
    Except.error (ApiError.rateLimit "Rate limit exceeded")
  else if resp.statusCode = 404 then
    Except.error (ApiError.notFound "Resource not found")
  else
    Except.error (ApiError.client
      (badResponseMessage resp.statusCode resp.content))

/-- A transport double: answers each request the client builds with an
envelope or an error, exactly what `_get`/`_post`/... return. -/
abbrev Transport (β : Type) := Request → Except ApiError (RespEnvelope β)

/-- `s` contains `sub` as a substring. -/
def containsSub (s sub : String) : Prop := ∃ a b, s = a ++ (sub ++ b)

/-! ## Validators (`endpoints.py`, `ValidateEntity` / `ValidateDataSource`) -/

/-- The dynamically typed argument of `upsert`: a Python list of dicts,
or any non-list value (rejected by the `isinstance` check). -/
inductive PyVal where
  | pylist (rows : List Dict)
  | nonList
deriving Repr, DecidableEq

/-- `ValidateEntity.create`: requires `organization_id` among the keys. -/
def ValidateEntity.create (data : Dict) : Except ApiError Unit :=
  if "organization_id" ∈ dictKeys data then Except.ok ()
  else Except.error (ApiError.validation
    "organization_id is required to create an entity object")

/-- `ValidateEntity.upsert`: the argument must be a list, and every row
must contain `organization_id`. -/
def ValidateEntity.upsert (data : PyVal) : Except ApiError Unit :=
  match data with
  | PyVal.nonList =>
      Except.error (ApiError.validation "Data must be a list of dictionaries")
  | PyVal.pylist rows =>
      if rows.all (fun row => decide ("organization_id" ∈ dictKeys row)) then
        Except.ok ()
      else
        Except.error (ApiError.validation
          "organization_id is required to create an entity object")

/-- `ValidateDataSource.create`: requires `organization_id` and
`timestamp` among the keys. -/
def ValidateDataSource.create (data : Dict) : Except ApiError Unit :=
  if "organization_id" ∈ dictKeys data ∧ "timestamp" ∈ dictKeys data then
    Except.ok ()
  else Except.error (ApiError.validation
    "organization_id and timestamp is required to create a datasource object")

/-- `ValidateDataSource.upsert`: the argument must be a list, and every
row must contain `organization_id` and `timestamp`. -/
def ValidateDataSource.upsert (data : PyVal) : Except ApiError Unit :=
  match data with
  | PyVal.nonList =>
      Except.error (ApiError.validation "Data must be a list of dictionaries")
  | PyVal.pylist rows =>
      if rows.all (fun row => decide ("organization_id" ∈ dictKeys row ∧
          "timestamp" ∈ dictKeys row)) then
        Except.ok ()
      else
        Except.error (ApiError.validation
          "organization_id and timestamp is required to create a datasource object")

/-! ## Paginated listing iterator (`list_all`, identical loop in all four
resource collections of `endpoints.py`) -/

/-- The Python guard `if limit and yield_count >= limit`: `limit` must be
truthy (not `None`, not `0`) and the count must have reached it. -/
def limitHit (limit : Option Nat) (yield_count : Nat) : Bool :=
  match limit with
  | Option.none => false
  | some l => if l = 0 then false else decide (l ≤ yield_count)

/-- The `for record in response.data` body of the loop: emit records one
by one, incrementing `yield_count`; stop (with `break`) as soon as the
limit guard fires.  Returns the emitted records, the new count, and
whether the limit stopped the batch early. -/
def emitBatch (limit : Option Nat) : List α → Nat → List α × Nat × Bool
  | [], yield_count => ([], yield_count, false)
  | r :: rs, yield_count =>
    if limitHit limit (yield_count + 1) then ([r], yield_count + 1, true)
    else
      let rest := emitBatch limit rs (yield_count + 1)
      (r :: rest.1, rest.2.1, rest.2.2)

/-- The initial `page_size`: `min(100, limit if limit else 100)` —
100 when `limit` is `None` or `0`, otherwise `min 100 limit`. -/
def initPageSize (limit : Option Nat) : Nat :=
  min 100 (match limit with
    | Option.none => 100
    | some l => if l = 0 then 100 else l)

/-- The `while trigger` loop of `list_all`, against a transport holding
the finite list of remaining batches (`pages`); a request beyond the
last batch returns the empty batch.  Returns the yielded records and
the list of page numbers requested, in request order.  Per iteration:
one request; emit the batch under the limit guard; stop if the guard
fired, or if the batch is empty or shorter than `page_size`; otherwise
increment the page number and continue. -/
def listAllLoop (limit : Option Nat) (page_size : Nat) :
    List (List α) → Nat → Nat → List α × List Nat
  | [], page, _ => ([], [page])
  | batch :: rest, page, yield_count =>
    let e := emitBatch limit batch yield_count
    if e.2.2 then (e.1, [page])
    else if batch.isEmpty || decide (batch.length < page_size) then
      (e.1, [page])
    else
      let r := listAllLoop limit page_size rest (page + 1) e.2.1
      (e.1 ++ r.1, page :: r.2)

/-- `list_all` from its initial state: `page = 1`, `yield_count = 0`,
`page_size = min(100, limit if limit else 100)`. -/
def listAll (limit : Option Nat) (pages : List (List α)) :
    List α × List Nat :=
  listAllLoop limit (initPageSize limit) pages 1 0

/-- The records `list_all` yields. -/
def listAllYields (limit : Option Nat) (pages : List (List α)) : List α :=
  (listAll limit pages).1

/-- The page numbers `list_all` requests, in order. -/
def listAllPageLog (limit : Option Nat) (pages : List (List α)) : List Nat :=
  (listAll limit pages).2

/-- The number of list requests `list_all` issues. -/
def listAllRequests (limit : Option Nat) (pages : List (List α)) : Nat :=
  (listAllPageLog limit pages).length

/-! ## Resource collections (`endpoints.py`) -/

/-- The warning logged when a requested `page_size` exceeds
`MAX_PAGE_SIZE` (the f-string with `MAX_PAGE_SIZE = 500` interpolated). -/
def maxPageSizeWarning : String :=
  "The maximum page size is 500. Response is truncated. \nPlease consider using the list_all method for large datasets."

/-- The `params` dict built by `Organizations.list` / `Users.list`. -/
def orgListParams (page_size page : Nat) (order_by : Option String)
    (direction : String) : Params :=
  [("page_size", ParamVal.vnat page_size), ("page", ParamVal.vnat page),
   ("order", optStr order_by), ("direction", ParamVal.vstr direction)]

/-- The `params` dict built by `Entities.list`/`list_all` and the body
dict built by `DataSources.list`/`list_all`. -/
def entityListParams (page_size page : Nat)
    (order group fltr : Option String) (organizations : List String) :
    Params :=
  [("page_size", ParamVal.vnat page_size), ("page", ParamVal.vnat page),
   ("order", optStr order), ("group", optStr group), ("filter", optStr fltr),
   ("target_organization_ids",
     ParamVal.vstr (String.intercalate "," organizations))]

namespace Organizations

/-- `Organizations.list`: clamp an oversized `page_size` to
`MAX_PAGE_SIZE` with a warning, then issue one GET to `organizations`
with the params in the query string.  Returns the transport's decoded
payload, the requests issued, and the warnings logged. -/
def list (tr : Transport β) (page_size page : Nat)
    (order_by : Option String) (direction : String) :
    Except ApiError (Option β) × List Request × List String :=
  let warnings := if page_size > MAX_PAGE_SIZE then [maxPageSizeWarning] else []
  let ps := if page_size > MAX_PAGE_SIZE then MAX_PAGE_SIZE else page_size
  let req : Request :=
    { method := "GET", endpoint := "organizations",
      params := some (orgListParams ps page order_by direction) }
  ((tr req).map (fun env => env.data), [req], warnings)

/-- `Organizations.list_all`: the shared pagination loop, each request a
GET to `organizations` with the current page in the query params. -/
def list_all (limit : Option Nat) (order_by : Option String)
    (direction : String) (pages : List (List α)) :
    List α × List Request :=
  let ps := initPageSize limit
  let r := listAllLoop limit ps pages 1 0
  (r.1, r.2.map (fun pg =>
    { method := "GET", endpoint := "organizations",
      params := some (orgListParams ps pg order_by direction) }))

end Organizations

namespace Users

/-- `Users.list`: identical to `Organizations.list` with endpoint
`users`. -/
def list (tr : Transport β) (page_size page : Nat)
    (order_by : Option String) (direction : String) :
    Except ApiError (Option β) × List Request × List String :=
  let warnings := if page_size > MAX_PAGE_SIZE then [maxPageSizeWarning] else []
  let ps := if page_size > MAX_PAGE_SIZE then MAX_PAGE_SIZE else page_size
  let req : Request :=
    { method := "GET", endpoint := "users",
      params := some (orgListParams ps page order_by direction) }
  ((tr req).map (fun env => env.data), [req], warnings)

/-- `Users.list_all`: the shared pagination loop over GET `users`. -/
def list_all (limit : Option Nat) (order_by : Option String)
    (direction : String) (pages : List (List α)) :
    List α × List Request :=
  let ps := initPageSize limit
  let r := listAllLoop limit ps pages 1 0
  (r.1, r.2.map (fun pg =>
    { method := "GET", endpoint := "users",
      params := some (orgListParams ps pg order_by direction) }))

end Users

/-- The rows of an `upsert` argument; consulted only after the
`isinstance(data, list)` check has passed. -/
def PyVal.rows : PyVal → List Dict
  | PyVal.pylist rs => rs
  | PyVal.nonList => []

namespace Entities

/-- `Entities.list`: clamp an oversized `page_size` with a warning, then
one POST to `entities/\x7bname\x7d/entityobjects/list` — the six
parameters travel as query params (`params=`), the body is empty. -/
def list (tr : Transport β) (entity_name : String)
    (organizations : List String) (page_size page : Nat)
    (order group fltr : Option String) :
    Except ApiError (Option β) × List Request × List String :=
  let warnings := if page_size > MAX_PAGE_SIZE then [maxPageSizeWarning] else []
  let ps := if page_size > MAX_PAGE_SIZE then MAX_PAGE_SIZE else page_size
  let req : Request :=
    { method := "POST",
      endpoint := "entities/" ++ entity_name ++ "/entityobjects/list",
      params := some (entityListParams ps page order group fltr organizations) }
  ((tr req).map (fun env => env.data), [req], warnings)

/-- `Entities.list_all`: the shared pagination loop; each request is a
POST to `entities/\x7bname\x7d/entityobjects/list` with the parameters
as query params (`params=`) and an empty body. -/
def list_all (entity_name : String) (limit : Option Nat)
    (organizations : List String) (order group fltr : Option String)
    (pages : List (List α)) : List α × List Request :=
  let ps := initPageSize limit
  let r := listAllLoop limit ps pages 1 0
  (r.1, r.2.map (fun pg =>
    { method := "POST",
      endpoint := "entities/" ++ entity_name ++ "/entityobjects/list",
      params := some (entityListParams ps pg order group fltr organizations) }))

/-- `Entities.create`: validate, then one POST to
`entities/\x7bname\x7d/entityobjects` with the payload dict as body;
returns `response.data` unchanged. -/
def create (tr : Transport β) (entity_name : String) (data : Dict) :
    Except ApiError (Option β) × List Request :=
  match ValidateEntity.create data with
  | Except.error e => (Except.error e, [])
  | Except.ok _ =>
    let req : Request :=
      { method := "POST",
        endpoint := "entities/" ++ entity_name ++ "/entityobjects",
        data := some (Body.dictBody data) }
    ((tr req).map (fun env => env.data), [req])

/-- `Entities.upsert`: validate, then one POST to
`entities/\x7bname\x7d/entityobjects/import` with body
`\x7b"entity_objects": data, "delete_others": truncate\x7d`. -/
def upsert (tr : Transport β) (entity_name : String) (data : PyVal)
    (truncate : Bool) : Except ApiError (Option β) × List Request :=
  match ValidateEntity.upsert data with
  | Except.error e => (Except.error e, [])
  | Except.ok _ =>
    let req : Request :=
      { method := "POST",
        endpoint := "entities/" ++ entity_name ++ "/entityobjects/import",
        data := some (Body.importBody data.rows truncate) }
    ((tr req).map (fun env => env.data), [req])

end Entities

namespace DataSources

/-- `DataSources.list`: clamp an oversized `page_size` with a warning,
then one POST to `datasources/\x7bname\x7d/dataobjects/list` — the six
parameters travel in the request body (`data=`), no query params. -/
def list (tr : Transport β) (datasource_name : String)
    (organizations : List String) (page_size page : Nat)
    (order group fltr : Option String) :
    Except ApiError (Option β) × List Request × List String :=
  let warnings := if page_size > MAX_PAGE_SIZE then [maxPageSizeWarning] else []
  let ps := if page_size > MAX_PAGE_SIZE then MAX_PAGE_SIZE else page_size
  let req : Request :=
    { method := "POST",
      endpoint := "datasources/" ++ datasource_name ++ "/dataobjects/list",
      data := some (Body.paramsBody
        (entityListParams ps page order group fltr organizations)) }
  ((tr req).map (fun env => env.data), [req], warnings)

/-- `DataSources.list_all`: the shared pagination loop; each request is
a POST to `datasources/\x7bname\x7d/dataobjects/list` with the
parameters in the request body (`data=`). -/
def list_all (datasource_name : String) (limit : Option Nat)
    (organizations : List String) (order group fltr : Option String)
    (pages : List (List α)) : List α × List Request :=
  let ps := initPageSize limit
  let r := listAllLoop limit ps pages 1 0
  (r.1, r.2.map (fun pg =>
    { method := "POST",
      endpoint := "datasources/" ++ datasource_name ++ "/dataobjects/list",
      data := some (Body.paramsBody
        (entityListParams ps pg order group fltr organizations)) }))

/-- `DataSources.create`: validate, then one POST to
`datasources/\x7bname\x7d/dataobjects` with the payload dict as body. -/
def create (tr : Transport β) (datasource_name : String) (data : Dict) :
    Except ApiError (Option β) × List Request :=
  match ValidateDataSource.create data with
  | Except.error e => (Except.error e, [])
  | Except.ok _ =>
    let req : Request :=
      { method := "POST",
        endpoint := "datasources/" ++ datasource_name ++ "/dataobjects",
        data := some (Body.dictBody data) }
    ((tr req).map (fun env => env.data), [req])

/-- `DataSources.upsert`: validate, then one POST to
`datasources/\x7bname\x7d/dataobjects/import` whose body is the bare
list of payload dicts — no `delete_others` flag. -/
def upsert (tr : Transport β) (datasource_name : String) (data : PyVal) :
    Except ApiError (Option β) × List Request :=
  match ValidateDataSource.upsert data with
  | Except.error e => (Except.error e, [])
  | Except.ok _ =>
    let req : Request :=
      { method := "POST",
        endpoint := "datasources/" ++ datasource_name ++ "/dataobjects/import",
        data := some (Body.listBody data.rows) }
    ((tr req).map (fun env => env.data), [req])

end DataSources

/-- The continuation test of the loop, as the code writes it: keep
going exactly when the batch is neither empty nor strictly shorter than
the requested `page_size`. -/
def fullBatch (page_size : Nat) (b : List α) : Bool :=
  !(b.isEmpty || decide (b.length < page_size))

/-- The four example batch sizes `[100, 100, 100, 40]` from the spec's
iterator property, with distinct `Nat` records `0..339`. -/
def pagesEx : List (List Nat) :=
  [List.range' 0 100, List.range' 100 100, List.range' 200 100,
   List.range' 300 40]

/-! ## Lemmas about the pagination loop -/

lemma limitHit_some_pos (l yc : Nat) (hl : 0 < l) :
    limitHit (some l) yc = decide (l ≤ yc) := by
  simp [limitHit, Nat.pos_iff_ne_zero.mp hl]

lemma emitBatch_none (b : List α) (yc : Nat) :
    emitBatch Option.none b yc = (b, yc + b.length, false) := by
  induction b generalizing yc with
  | nil => simp [emitBatch]
  | cons r rs ih =>
    simp [emitBatch, limitHit, ih]
    omega

lemma emitBatch_some (l : Nat) (hl : 0 < l) (b : List α) :
    ∀ yc, yc < l →
    emitBatch (some l) b yc =
      (b.take (l - yc), min l (yc + b.length), decide (l - yc ≤ b.length)) := by
  induction b with
  | nil =>
    intro yc h
    simp [emitBatch]
    omega
  | cons r rs ih =>
    intro yc h
    rw [emitBatch, limitHit_some_pos l (yc + 1) hl]
    by_cases hle : l ≤ yc + 1
    · have hly : l = yc + 1 := by omega
      subst hly
      simp [List.take_succ_cons]
    · have h1 : yc + 1 < l := by omega
      rw [if_neg (by simpa using hle)]
      rw [ih (yc + 1) h1]
      refine Prod.ext ?_ (Prod.ext ?_ ?_)
      · show r :: rs.take (l - (yc + 1)) = (r :: rs).take (l - yc)
        have : l - yc = (l - (yc + 1)) + 1 := by omega
        rw [this, List.take_succ_cons]
      · show min l (yc + 1 + rs.length) = min l (yc + (r :: rs).length)
        simp
        omega
      · show decide (l - (yc + 1) ≤ rs.length) = decide (l - yc ≤ (r :: rs).length)
        simp
        omega

/-- No-limit run of the loop: it yields the concatenation of the
batches it fetched, requests consecutive pages starting at `page`, and
the number of requests is one more than the leading run of full
batches. -/
lemma listAllLoop_none_spec (ps : Nat) (pages : List (List α)) :
    ∀ page yc, ∃ k,
      listAllLoop Option.none ps pages page yc =
        ((pages.take k).flatten, List.range' page k) ∧
      k = (pages.takeWhile (fullBatch ps)).length + 1 := by
  induction pages with
  | nil =>
    intro page yc
    refine ⟨1, ?_, ?_⟩
    · simp [listAllLoop]
    · simp
  | cons batch rest ih =>
    intro page yc
    by_cases hshort : batch.isEmpty || decide (batch.length < ps)
    · refine ⟨1, ?_, ?_⟩
      · simp [listAllLoop, emitBatch_none, hshort]
      · simp [fullBatch, hshort]
    · obtain ⟨k, hk, hklen⟩ := ih (page + 1) (yc + batch.length)
      refine ⟨k + 1, ?_, ?_⟩
      · simp only [listAllLoop, emitBatch_none, hshort]
        rw [hk]
        simp [List.range'_succ, List.take_succ_cons]
      · simp [fullBatch, hshort, hklen]

/-- Limited run of the loop (`0 < l`, `yc < l` on entry): it yields the
first `l - yc` records of the concatenation of the fetched batches,
requests consecutive pages, and every request but the last was issued
strictly before the limit was reached. -/
lemma listAllLoop_some_spec (l ps : Nat) (hl : 0 < l)
    (pages : List (List α)) :
    ∀ page yc, yc < l → ∃ k, 1 ≤ k ∧
      listAllLoop (some l) ps pages page yc =
        (((pages.take k).flatten).take (l - yc), List.range' page k) ∧
      (pages.take (k - 1)).flatten.length < l - yc := by
  induction pages with
  | nil =>
    intro page yc hyc
    refine ⟨1, le_refl 1, ?_, ?_⟩
    · simp [listAllLoop]
    · simp
      omega
  | cons batch rest ih =>
    intro page yc hyc
    by_cases hstop : l - yc ≤ batch.length
    · refine ⟨1, le_refl 1, ?_, ?_⟩
      · simp only [listAllLoop, emitBatch_some l hl batch yc hyc]
        simp [hstop]
      · simp
        omega
    · have hlen : batch.length < l - yc := by omega
      have hyc2 : yc + batch.length < l := by omega
      by_cases hshort : (batch.isEmpty || decide (batch.length < ps)) = true
      · refine ⟨1, le_refl 1, ?_, ?_⟩
        · simp only [listAllLoop, emitBatch_some l hl batch yc hyc]
          rw [if_neg (by simp; omega), if_pos hshort]
          simp
        · simp
          omega
      · obtain ⟨k, hk1, hk, hkb⟩ := ih (page + 1) (yc + batch.length) hyc2
        refine ⟨k + 1, by omega, ?_, ?_⟩
        · simp only [listAllLoop, emitBatch_some l hl batch yc hyc]
          rw [if_neg (by simp; omega), if_neg hshort]
          have hmin : min l (yc + batch.length) = yc + batch.length := by
            omega
          rw [hmin, hk]
          rw [List.take_succ_cons, List.flatten_cons,
            List.take_append_eq_append_take,
            List.take_of_length_le (le_of_lt hlen),
            List.range'_succ]
          have hsub : l - yc - batch.length = l - (yc + batch.length) := by
            omega
          rw [hsub]
        · rw [Nat.add_sub_cancel]
          have hkk : (batch :: rest).take k = batch :: rest.take (k - 1) := by
            cases k with
            | zero => omega
            | succ k0 => simp [List.take_succ_cons]
          rw [hkk]
          simp only [List.flatten_cons, List.length_append]
          omega

lemma emitBatch_zero (b : List α) (yc : Nat) :
    emitBatch (some 0) b yc = emitBatch Option.none b yc := by
  induction b generalizing yc with
  | nil => rfl
  | cons r rs ih => simp [emitBatch, limitHit, ih]

lemma listAllLoop_zero (ps : Nat) (pages : List (List α)) :
    ∀ page yc, listAllLoop (some 0) ps pages page yc =
      listAllLoop Option.none ps pages page yc := by
  induction pages with
  | nil => intro page yc; rfl
  | cons batch rest ih =>
    intro page yc
    simp only [listAllLoop, emitBatch_zero, ih]

lemma initPageSize_zero : initPageSize (some 0) = initPageSize Option.none :=
  rfl

/-- A limited run whose limit is never reached — the records of the
batches the no-limit run would fetch number fewer than `l - yc` — is
identical to the no-limit run: the guard never fires, so the loop
terminates by the same empty-or-short-batch test. -/
lemma listAllLoop_some_unreached (l ps : Nat) (hl : 0 < l)
    (pages : List (List α)) :
    ∀ page yc, yc < l →
    yc + (pages.take
        ((pages.takeWhile (fullBatch ps)).length + 1)).flatten.length < l →
    listAllLoop (some l) ps pages page yc =
      listAllLoop Option.none ps pages page yc := by
  induction pages with
  | nil => intro page yc _ _; rfl
  | cons batch rest ih =>
    intro page yc hyc H
    by_cases hfull : fullBatch ps batch = true
    · have hshort : (batch.isEmpty || decide (batch.length < ps)) = false := by
        simpa [fullBatch] using hfull
      simp only [List.takeWhile_cons, hfull, if_true, List.length_cons,
        List.take_succ_cons, List.flatten_cons, List.length_append] at H
      have hb : yc + batch.length < l := by omega
      have hsome : listAllLoop (some l) ps (batch :: rest) page yc =
          (batch ++
            (listAllLoop (some l) ps rest (page + 1) (yc + batch.length)).1,
           page ::
            (listAllLoop (some l) ps rest (page + 1) (yc + batch.length)).2) := by
        simp only [listAllLoop, emitBatch_some l hl batch yc hyc]
        rw [if_neg (by simp; omega), if_neg (by simp [hshort])]
        rw [List.take_of_length_le (by omega)]
        have hmin : min l (yc + batch.length) = yc + batch.length := by omega
        rw [hmin]
      have hnone : listAllLoop Option.none ps (batch :: rest) page yc =
          (batch ++
            (listAllLoop Option.none ps rest (page + 1) (yc + batch.length)).1,
           page ::
            (listAllLoop Option.none ps rest (page + 1) (yc + batch.length)).2) := by
        simp only [listAllLoop, emitBatch_none]
        rw [if_neg Bool.false_ne_true, if_neg (by simp [hshort])]
      rw [hsome, hnone, ih (page + 1) (yc + batch.length) hb (by omega)]
    · have hshort : (batch.isEmpty || decide (batch.length < ps)) = true := by
        cases hx : (batch.isEmpty || decide (batch.length < ps)) with
        | true => rfl
        | false => exact absurd (by simp [fullBatch, hx]) hfull
      simp only [List.takeWhile_cons, hfull, if_false, List.length_nil,
        List.take_succ_cons, List.take_zero, List.flatten_cons,
        List.flatten_nil, List.length_append, List.length_nil,
        List.append_nil] at H
      have hsome : listAllLoop (some l) ps (batch :: rest) page yc =
          (batch, [page]) := by
        simp only [listAllLoop, emitBatch_some l hl batch yc hyc]
        rw [if_neg (by simp; omega), if_pos hshort]
        rw [List.take_of_length_le (by omega)]
      have hnone : listAllLoop Option.none ps (batch :: rest) page yc =
          (batch, [page]) := by
        simp only [listAllLoop, emitBatch_none]
        rw [if_neg Bool.false_ne_true, if_pos hshort]
      rw [hsome, hnone]

/-! ## Claim theorems -/

/-- C10: for every `list_all` invocation with `limit = 0`, the zero
limit behaves exactly like no limit at all — the limit guard is
disabled and the initial `page_size` is 100, identically to
`limit = None` — for the shared loop and hence for all four resource
collections. -/
theorem claimC10 :
    (∀ (α : Type) (pages : List (List α)),
      listAll (some 0) pages = listAll Option.none pages) ∧
    initPageSize (some 0) = initPageSize Option.none ∧
    initPageSize Option.none = 100 ∧
    (∀ (α : Type) (pages : List (List α)) (ob : Option String)
        (dir : String),
      Organizations.list_all (some 0) ob dir pages =
        Organizations.list_all Option.none ob dir pages ∧
      Users.list_all (some 0) ob dir pages =
        Users.list_all Option.none ob dir pages) ∧
    (∀ (α : Type) (pages : List (List α)) (name : String)
        (orgs : List String) (order group fltr : Option String),
      Entities.list_all name (some 0) orgs order group fltr pages =
        Entities.list_all name Option.none orgs order group fltr pages ∧
      DataSources.list_all name (some 0) orgs order group fltr pages =
        DataSources.list_all name Option.none orgs order group fltr pages) := by
  refine ⟨?_, rfl, rfl, ?_, ?_⟩
  · intro α pages
    simp only [listAll, listAllLoop_zero, initPageSize_zero]
  · intro α pages ob dir
    constructor <;>
      simp only [Organizations.list_all, Users.list_all, listAllLoop_zero,
        initPageSize_zero]
  · intro α pages name orgs order group fltr
    constructor <;>
      simp only [Entities.list_all, DataSources.list_all, listAllLoop_zero,
        initPageSize_zero]

/-- C1: the paginated iterator yields exactly the records of the
batches it fetched, in batch order, with pages fetched in increasing
page-number order starting at 1; with a limit it yields exactly the
first `limit` records of that concatenation; all four resource
collections run this same loop; and on pages of sizes
`[100, 100, 100, 40]` it yields 340 records in 4 requests with no
limit, and 250 records in 3 requests with `limit = 250`. -/
theorem claimC1 :
    (∀ (α : Type) (pages : List (List α)),
      listAllYields Option.none pages =
        (pages.take (listAllRequests Option.none pages)).flatten ∧
      listAllPageLog Option.none pages =
        List.range' 1 (listAllRequests Option.none pages)) ∧
    (∀ (α : Type) (pages : List (List α)) (l : Nat), 0 < l →
      listAllYields (some l) pages =
        ((pages.take (listAllRequests (some l) pages)).flatten).take l ∧
      listAllPageLog (some l) pages =
        List.range' 1 (listAllRequests (some l) pages)) ∧
    (∀ (α : Type) (pages : List (List α)) (limit : Option Nat)
        (ob : Option String) (dir : String) (name : String)
        (orgs : List String) (order group fltr : Option String),
      (Organizations.list_all limit ob dir pages).1 =
          listAllYields limit pages ∧
      (Organizations.list_all limit ob dir pages).2.length =
          listAllRequests limit pages ∧
      (Users.list_all limit ob dir pages).1 = listAllYields limit pages ∧
      (Users.list_all limit ob dir pages).2.length =
          listAllRequests limit pages ∧
      (Entities.list_all name limit orgs order group fltr pages).1 =
          listAllYields limit pages ∧
      (Entities.list_all name limit orgs order group fltr pages).2.length =
          listAllRequests limit pages ∧
      (DataSources.list_all name limit orgs order group fltr pages).1 =
          listAllYields limit pages ∧
      (DataSources.list_all name limit orgs order group fltr pages).2.length =
          listAllRequests limit pages) ∧
    (listAllYields Option.none pagesEx).length = 340 ∧
    listAllRequests Option.none pagesEx = 4 ∧
    (listAllYields (some 250) pagesEx).length = 250 ∧
    listAllRequests (some 250) pagesEx = 3 ∧
    listAllYields (some 250) pagesEx = pagesEx.flatten.take 250 := by
  refine ⟨?_, ?_, ?_, by decide, by decide, by decide, by decide, by decide⟩
  · intro α pages
    obtain ⟨k, hk, hkval⟩ :=
      listAllLoop_none_spec (initPageSize Option.none) pages 1 0
    constructor
    · simp only [listAllYields, listAllRequests, listAllPageLog, listAll, hk,
        List.length_range']
    · simp only [listAllYields, listAllRequests, listAllPageLog, listAll, hk,
        List.length_range']
  · intro α pages l hl
    obtain ⟨k, hk1, hk, hkb⟩ :=
      listAllLoop_some_spec l (initPageSize (some l)) hl pages 1 0 hl
    constructor
    · simp only [listAllYields, listAllRequests, listAllPageLog, listAll, hk,
        List.length_range', Nat.sub_zero]
    · simp only [listAllYields, listAllRequests, listAllPageLog, listAll, hk,
        List.length_range']
  · intro α pages limit ob dir name orgs order group fltr
    refine ⟨rfl, ?_, rfl, ?_, rfl, ?_, rfl, ?_⟩ <;>
      simp [Organizations.list_all, Users.list_all, Entities.list_all,
        DataSources.list_all, listAllRequests, listAllPageLog, listAll]

/-- C1 witness: the limited-run conjunct instantiated at the example
pages with `limit = 250`. -/
theorem claimC1_witness :
    listAllYields (some 250) pagesEx =
      ((pagesEx.take (listAllRequests (some 250) pagesEx)).flatten).take 250 ∧
    listAllPageLog (some 250) pagesEx =
      List.range' 1 (listAllRequests (some 250) pagesEx) :=
  claimC1.2.1 Nat pagesEx 250 (by decide)

/-- C2: once the yield count reaches a nonzero limit the iterator
stops: it never yields more than `limit` records, every request except
possibly the last was issued while strictly fewer than `limit` records
had been yielded, and on pages `[100, 100, 100, 40]` with
`limit = 250` exactly 3 requests are issued. -/
theorem claimC2 :
    (∀ (α : Type) (pages : List (List α)) (l : Nat), 0 < l →
      (listAllYields (some l) pages).length ≤ l ∧
      (pages.take (listAllRequests (some l) pages - 1)).flatten.length < l) ∧
    listAllRequests (some 250) pagesEx = 3 ∧
    (listAllYields (some 250) pagesEx).length = 250 := by
  refine ⟨?_, by decide, by decide⟩
  intro α pages l hl
  obtain ⟨k, hk1, hk, hkb⟩ :=
    listAllLoop_some_spec l (initPageSize (some l)) hl pages 1 0 hl
  constructor
  · simp only [listAllYields, listAll, hk, List.length_take]
    omega
  · simp only [listAllRequests, listAllPageLog, listAll, hk,
      List.length_range']
    omega

/-- C2 witness: the general bound instantiated at the example pages
with `limit = 250`. -/
theorem claimC2_witness :
    (listAllYields (some 250) pagesEx).length ≤ 250 ∧
    (pagesEx.take (listAllRequests (some 250) pagesEx - 1)).flatten.length <
      250 :=
  claimC2.1 Nat pagesEx 250 (by decide)

/-- C3: every run not cut short by the limit — no limit at all, or a
limit the yield count never reaches — terminates exactly at the first
batch that is empty or strictly shorter than the requested
`page_size` (`initPageSize limit`): the number of requests is one more
than the leading run of full batches, and everything fetched is
yielded.  Consequently an empty first page gives zero records in
1 request (with or without a limit), an exactly full last page causes
one extra, empty-yield request, and concretely `limit = 1000` over
pages `[100, 100, 100, 40]` gives 340 records in 4 requests, while
`limit = 3` over one 2-record page gives 2 records in 1 request. -/
theorem claimC3 :
    (∀ (α : Type) (pages : List (List α)),
      listAllRequests Option.none pages =
        (pages.takeWhile (fullBatch 100)).length + 1 ∧
      listAllYields Option.none pages =
        (pages.take (listAllRequests Option.none pages)).flatten) ∧
    (∀ (α : Type) (pages : List (List α)) (l : Nat), 0 < l →
      (pages.take ((pages.takeWhile
          (fullBatch (initPageSize (some l)))).length + 1)).flatten.length <
        l →
      listAllRequests (some l) pages =
        (pages.takeWhile (fullBatch (initPageSize (some l)))).length + 1 ∧
      listAllYields (some l) pages =
        (pages.take (listAllRequests (some l) pages)).flatten) ∧
    (listAllYields Option.none ([[]] : List (List Nat)) = [] ∧
      listAllRequests Option.none ([[]] : List (List Nat)) = 1 ∧
      listAllYields (some 5) ([[]] : List (List Nat)) = [] ∧
      listAllRequests (some 5) ([[]] : List (List Nat)) = 1) ∧
    (listAllRequests (some 1000) pagesEx = 4 ∧
      (listAllYields (some 1000) pagesEx).length = 340 ∧
      listAllRequests (some 3) [[0, 1]] = 1 ∧
      listAllYields (some 3) [[0, 1]] = [0, 1]) ∧
    (∀ (α : Type) (b : List α), b.length = 100 →
      listAllRequests Option.none [b] = 2 ∧
      listAllYields Option.none [b] = b) := by
  have general : ∀ (α : Type) (pages : List (List α)),
      listAllRequests Option.none pages =
        (pages.takeWhile (fullBatch 100)).length + 1 ∧
      listAllYields Option.none pages =
        (pages.take (listAllRequests Option.none pages)).flatten := by
    intro α pages
    obtain ⟨k, hk, hkval⟩ :=
      listAllLoop_none_spec (initPageSize Option.none) pages 1 0
    have hps : initPageSize Option.none = 100 := rfl
    rw [hps] at hk hkval
    constructor
    · simp only [listAllRequests, listAllPageLog, listAll, hps, hk,
        List.length_range']
      exact hkval
    · simp only [listAllYields, listAllRequests, listAllPageLog, listAll,
        hps, hk, List.length_range']
  refine ⟨general, ?_, ⟨by decide, by decide, by decide, by decide⟩,
    ⟨by decide, by decide, by decide, by decide⟩, ?_⟩
  · intro α pages l hl hnr
    have hequ := listAllLoop_some_unreached l (initPageSize (some l)) hl
      pages 1 0 hl (by simpa using hnr)
    obtain ⟨k, hk, hkval⟩ :=
      listAllLoop_none_spec (initPageSize (some l)) pages 1 0
    constructor
    · simp only [listAllRequests, listAllPageLog, listAll, hequ, hk,
        List.length_range']
      exact hkval
    · simp only [listAllYields, listAllRequests, listAllPageLog, listAll,
        hequ, hk, List.length_range']
  · intro α b hb
    obtain ⟨hreq, hyield⟩ := general α [b]
    have hfull : fullBatch 100 b = true := by
      simp [fullBatch, hb, List.isEmpty_iff]
      intro hcon
      rw [hcon] at hb
      simp at hb
    have hreq2 : listAllRequests Option.none [b] = 2 := by
      rw [hreq]
      simp [List.takeWhile, hfull]
    refine ⟨hreq2, ?_⟩
    rw [hyield, hreq2]
    simp

/-- C3 witness: the limited-but-unreached conjunct instantiated at the
example pages with `limit = 1000`, and the exactly-full-last-page
conjunct instantiated at a concrete batch of 100 records. -/
theorem claimC3_witness :
    (listAllRequests (some 1000) pagesEx =
        (pagesEx.takeWhile (fullBatch (initPageSize (some 1000)))).length +
          1 ∧
      listAllYields (some 1000) pagesEx =
        (pagesEx.take (listAllRequests (some 1000) pagesEx)).flatten) ∧
    (listAllRequests Option.none [List.range' 0 100] = 2 ∧
      listAllYields Option.none [List.range' 0 100] = List.range' 0 100) :=
  ⟨claimC3.2.1 Nat pagesEx 1000 (by decide) (by decide),
   claimC3.2.2.2.2 Nat (List.range' 0 100) (by simp)⟩

lemma badResponseMessage_has_status (s : Nat) (c : String) :
    containsSub (badResponseMessage s c) (toString s) := by
  refine ⟨"Bad response. \n Status Code: ", "\n  Message: " ++ c, ?_⟩
  rw [badResponseMessage, String.append_assoc]

lemma badResponseMessage_has_content (s : Nat) (c : String) :
    containsSub (badResponseMessage s c) c := by
  refine ⟨"Bad response. \n Status Code: " ++ toString s ++ "\n  Message: ",
    "", ?_⟩
  rw [badResponseMessage]
  simp [String.append_assoc]

/-- C4: `_send_request` maps 429 to `RateLimitException`, 404 to
`NotFoundException`, any other non-ok status to `RestClientException`
with the status code and raw body in the message; an ok response whose
body fails to decode raises `RestClientException`; an ok DELETE never
decodes and returns an envelope with the payload unset regardless of
body content; and every 2xx status is ok. -/
theorem claimC4 :
    (∀ (β : Type) (method : String) (resp : HttpResponse β),
      (resp.statusCode = 429 →
        sendRequest method resp =
          Except.error (ApiError.rateLimit "Rate limit exceeded")) ∧
      (resp.statusCode = 404 →
        sendRequest method resp =
          Except.error (ApiError.notFound "Resource not found")) ∧
      (responseOk resp.statusCode = false → resp.statusCode ≠ 429 →
        resp.statusCode ≠ 404 →
        sendRequest method resp = Except.error (ApiError.client
            (badResponseMessage resp.statusCode resp.content)) ∧
        containsSub (badResponseMessage resp.statusCode resp.content)
          (toString resp.statusCode) ∧
        containsSub (badResponseMessage resp.statusCode resp.content)
          resp.content) ∧
      (responseOk resp.statusCode = true → method ≠ "DELETE" →
        resp.jsonData = Option.none →
        sendRequest method resp = Except.error
          (ApiError.client "Response does not contain valid json")) ∧
      (responseOk resp.statusCode = true →
        sendRequest "DELETE" resp = Except.ok
          { status_code := resp.statusCode, headers := resp.headers,
            message := "", data := Option.none })) ∧
    (∀ s : Nat, 200 ≤ s → s < 300 → responseOk s = true) := by
  constructor
  · intro β method resp
    refine ⟨?_, ?_, ?_, ?_, ?_⟩
    · intro h
      simp [sendRequest, responseOk, h]
    · intro h
      simp [sendRequest, responseOk, h]
    · intro hok h429 h404
      refine ⟨?_, badResponseMessage_has_status _ _,
        badResponseMessage_has_content _ _⟩
      simp [sendRequest, hok, h429, h404]
    · intro hok hdel hjson
      simp [sendRequest, hok, hdel, hjson]
    · intro hok
      simp [sendRequest, hok]
  · intro s h1 h2
    simp [responseOk]
    omega

/-- C4 witness: the status mapping evaluated at concrete responses:
429, 404, a generic 400 with body, an undecodable 200, and a DELETE
against a 200 with a decodable body. -/
theorem claimC4_witness :
    sendRequest "GET" (HttpResponse.mk 429 [] "" (Option.none : Option Unit)) =
      Except.error (ApiError.rateLimit "Rate limit exceeded") ∧
    sendRequest "GET" (HttpResponse.mk 404 [] "" (Option.none : Option Unit)) =
      Except.error (ApiError.notFound "Resource not found") ∧
    sendRequest "GET"
        (HttpResponse.mk 400 [] "oops" (Option.none : Option Unit)) =
      Except.error (ApiError.client (badResponseMessage 400 "oops")) ∧
    sendRequest "GET"
        (HttpResponse.mk 200 [] "junk" (Option.none : Option Unit)) =
      Except.error (ApiError.client "Response does not contain valid json") ∧
    sendRequest "DELETE" (HttpResponse.mk 200 [] "junk" (some ())) =
      Except.ok (RespEnvelope.mk 200 [] "" (Option.none : Option Unit)) :=
  ⟨(claimC4.1 Unit "GET" _).1 rfl,
   (claimC4.1 Unit "GET" _).2.1 rfl,
   ((claimC4.1 Unit "GET" _).2.2.1 (by decide) (by decide) (by decide)).1,
   (claimC4.1 Unit "GET" _).2.2.2.1 (by decide) (by decide) rfl,
   (claimC4.1 Unit "DELETE" _).2.2.2.2 (by decide)⟩

/-- C5: a payload missing the required key set makes `create`/`upsert`
fail with `ValidationError` and issue zero requests; a payload with the
required keys passes validation regardless of extra keys; `upsert` on a
non-list argument fails with `ValidationError` and zero requests. -/
theorem claimC5 :
    (∀ (β : Type) (tr : Transport β) (name : String) (data : Dict),
      "organization_id" ∉ dictKeys data →
      Entities.create tr name data =
        (Except.error (ApiError.validation
          "organization_id is required to create an entity object"), [])) ∧
    (∀ (β : Type) (tr : Transport β) (name : String) (rows : List Dict)
        (truncate : Bool),
      (∃ row ∈ rows, "organization_id" ∉ dictKeys row) →
      Entities.upsert tr name (PyVal.pylist rows) truncate =
        (Except.error (ApiError.validation
          "organization_id is required to create an entity object"), [])) ∧
    (∀ (β : Type) (tr : Transport β) (name : String) (data : Dict),
      ("organization_id" ∉ dictKeys data ∨ "timestamp" ∉ dictKeys data) →
      DataSources.create tr name data =
        (Except.error (ApiError.validation
          "organization_id and timestamp is required to create a datasource object"),
         [])) ∧
    (∀ (β : Type) (tr : Transport β) (name : String) (rows : List Dict),
      (∃ row ∈ rows,
        "organization_id" ∉ dictKeys row ∨ "timestamp" ∉ dictKeys row) →
      DataSources.upsert tr name (PyVal.pylist rows) =
        (Except.error (ApiError.validation
          "organization_id and timestamp is required to create a datasource object"),
         [])) ∧
    (∀ (β : Type) (tr : Transport β) (name : String) (truncate : Bool),
      Entities.upsert tr name PyVal.nonList truncate =
        (Except.error (ApiError.validation
          "Data must be a list of dictionaries"), []) ∧
      DataSources.upsert tr name PyVal.nonList =
        (Except.error (ApiError.validation
          "Data must be a list of dictionaries"), [])) ∧
    (∀ data : Dict, "organization_id" ∈ dictKeys data →
      ValidateEntity.create data = Except.ok ()) ∧
    (∀ rows : List Dict, (∀ row ∈ rows, "organization_id" ∈ dictKeys row) →
      ValidateEntity.upsert (PyVal.pylist rows) = Except.ok ()) ∧
    (∀ data : Dict, "organization_id" ∈ dictKeys data →
      "timestamp" ∈ dictKeys data →
      ValidateDataSource.create data = Except.ok ()) ∧
    (∀ rows : List Dict,
      (∀ row ∈ rows, "organization_id" ∈ dictKeys row ∧
        "timestamp" ∈ dictKeys row) →
      ValidateDataSource.upsert (PyVal.pylist rows) = Except.ok ()) := by
  refine ⟨?_, ?_, ?_, ?_, ?_, ?_, ?_, ?_, ?_⟩
  · intro β tr name data h
    simp [Entities.create, ValidateEntity.create, h]
  · intro β tr name rows truncate h
    have hall : rows.all
        (fun row => decide ("organization_id" ∈ dictKeys row)) = false := by
      obtain ⟨row, hmem, hrow⟩ := h
      simp [List.all_eq_true]
      exact ⟨row, hmem, hrow⟩
    simp [Entities.upsert, ValidateEntity.upsert, hall]
  · intro β tr name data h
    have hcond : ¬("organization_id" ∈ dictKeys data ∧
        "timestamp" ∈ dictKeys data) := by tauto
    simp only [DataSources.create, ValidateDataSource.create, if_neg hcond]
  · intro β tr name rows h
    have hall : rows.all (fun row =>
        decide ("organization_id" ∈ dictKeys row ∧
          "timestamp" ∈ dictKeys row)) = false := by
      obtain ⟨row, hmem, hrow⟩ := h
      simp [List.all_eq_true]
      exact ⟨row, hmem, fun hc => by tauto⟩
    have hval : ValidateDataSource.upsert (PyVal.pylist rows) =
        Except.error (ApiError.validation
          "organization_id and timestamp is required to create a datasource object") := by
      simp only [ValidateDataSource.upsert]
      rw [hall]
      simp
    simp [DataSources.upsert, hval]
  · intro β tr name truncate
    exact ⟨rfl, rfl⟩
  · intro data h
    simp [ValidateEntity.create, h]
  · intro rows h
    have hall : rows.all
        (fun row => decide ("organization_id" ∈ dictKeys row)) = true := by
      simp [List.all_eq_true]
      exact h
    simp [ValidateEntity.upsert, hall]
  · intro data h1 h2
    simp [ValidateDataSource.create, h1, h2]
  · intro rows h
    have hall : rows.all (fun row =>
        decide ("organization_id" ∈ dictKeys row ∧
          "timestamp" ∈ dictKeys row)) = true := by
      simp [List.all_eq_true]
      intro row hmem
      exact ⟨(h row hmem).1, (h row hmem).2⟩
    simp only [ValidateDataSource.upsert]
    rw [hall]
    simp

/-- C5 witness: concrete runs — a payload without `organization_id` is
rejected by `Entities.create` with no request issued, and a payload
with the required key plus an extra key passes validation. -/
theorem claimC5_witness :
    Entities.create (fun _ => Except.ok (RespEnvelope.mk 200 [] ""
        (Option.none : Option Unit))) "widget" [("name", "X")] =
      (Except.error (ApiError.validation
        "organization_id is required to create an entity object"), []) ∧
    ValidateEntity.create [("organization_id", "123456"), ("name", "X")] =
      Except.ok () ∧
    DataSources.upsert (fun _ => Except.ok (RespEnvelope.mk 200 [] ""
        (Option.none : Option Unit))) "ds"
        (PyVal.pylist [[("organization_id", "1")]]) =
      (Except.error (ApiError.validation
        "organization_id and timestamp is required to create a datasource object"),
       []) ∧
    Entities.upsert (fun _ => Except.ok (RespEnvelope.mk 200 [] ""
        (Option.none : Option Unit))) "widget" PyVal.nonList true =
      (Except.error (ApiError.validation
        "Data must be a list of dictionaries"), []) :=
  ⟨claimC5.1 Unit _ "widget" [("name", "X")] (by decide),
   claimC5.2.2.2.2.2.1 [("organization_id", "123456"), ("name", "X")]
     (by decide),
   claimC5.2.2.2.1 Unit _ "ds" [[("organization_id", "1")]]
     ⟨[("organization_id", "1")], by decide, by decide⟩,
   (claimC5.2.2.2.2.1 Unit _ "widget" true).1⟩

/-- C6: a single-page `list` call with `page_size` above the maximum of
500 sends `page_size = 500` to the transport and logs a warning, on all
four resource collections; the call result is exactly the transport's
(clamping never raises); and a `page_size` within the maximum produces
no warning. -/
theorem claimC6 :
    (∀ (β : Type) (tr : Transport β) (ps page : Nat) (ob : Option String)
        (dir : String), MAX_PAGE_SIZE < ps →
      ∃ req,
        Organizations.list tr ps page ob dir =
          ((tr req).map (fun env => env.data), [req], [maxPageSizeWarning]) ∧
        req.params = some (orgListParams MAX_PAGE_SIZE page ob dir)) ∧
    (∀ (β : Type) (tr : Transport β) (ps page : Nat) (ob : Option String)
        (dir : String), MAX_PAGE_SIZE < ps →
      ∃ req,
        Users.list tr ps page ob dir =
          ((tr req).map (fun env => env.data), [req], [maxPageSizeWarning]) ∧
        req.params = some (orgListParams MAX_PAGE_SIZE page ob dir)) ∧
    (∀ (β : Type) (tr : Transport β) (name : String) (orgs : List String)
        (ps page : Nat) (order group fltr : Option String),
      MAX_PAGE_SIZE < ps →
      ∃ req,
        Entities.list tr name orgs ps page order group fltr =
          ((tr req).map (fun env => env.data), [req], [maxPageSizeWarning]) ∧
        req.params =
          some (entityListParams MAX_PAGE_SIZE page order group fltr orgs)) ∧
    (∀ (β : Type) (tr : Transport β) (name : String) (orgs : List String)
        (ps page : Nat) (order group fltr : Option String),
      MAX_PAGE_SIZE < ps →
      ∃ req,
        DataSources.list tr name orgs ps page order group fltr =
          ((tr req).map (fun env => env.data), [req], [maxPageSizeWarning]) ∧
        req.data = some (Body.paramsBody
          (entityListParams MAX_PAGE_SIZE page order group fltr orgs))) ∧
    (∀ (β : Type) (tr : Transport β) (ps page : Nat) (ob : Option String)
        (dir : String), ps ≤ MAX_PAGE_SIZE →
      (Organizations.list tr ps page ob dir).2.2 = [] ∧
      (Users.list tr ps page ob dir).2.2 = []) ∧
    (∀ (β : Type) (tr : Transport β) (name : String) (orgs : List String)
        (ps page : Nat) (order group fltr : Option String),
      ps ≤ MAX_PAGE_SIZE →
      (Entities.list tr name orgs ps page order group fltr).2.2 = [] ∧
      (DataSources.list tr name orgs ps page order group fltr).2.2 = []) := by
  refine ⟨?_, ?_, ?_, ?_, ?_, ?_⟩
  · intro β tr ps page ob dir h
    refine ⟨Request.mk "GET" "organizations"
      (some (orgListParams MAX_PAGE_SIZE page ob dir)) Option.none, ?_, rfl⟩
    simp [Organizations.list, h]
  · intro β tr ps page ob dir h
    refine ⟨Request.mk "GET" "users"
      (some (orgListParams MAX_PAGE_SIZE page ob dir)) Option.none, ?_, rfl⟩
    simp [Users.list, h]
  · intro β tr name orgs ps page order group fltr h
    refine ⟨Request.mk "POST" ("entities/" ++ name ++ "/entityobjects/list")
      (some (entityListParams MAX_PAGE_SIZE page order group fltr orgs))
      Option.none, ?_, rfl⟩
    simp [Entities.list, h]
  · intro β tr name orgs ps page order group fltr h
    refine ⟨Request.mk "POST" ("datasources/" ++ name ++ "/dataobjects/list")
      Option.none (some (Body.paramsBody
        (entityListParams MAX_PAGE_SIZE page order group fltr orgs))), ?_, rfl⟩
    simp [DataSources.list, h]
  · intro β tr ps page ob dir h
    constructor <;> simp [Organizations.list, Users.list, Nat.not_lt.mpr h]
  · intro β tr name orgs ps page order group fltr h
    constructor <;> simp [Entities.list, DataSources.list, Nat.not_lt.mpr h]

/-- C6 witness: a `list` call with `page_size = 1000` sends 500 and
logs the warning. -/
theorem claimC6_witness :
    ∃ req,
      Organizations.list
          (fun _ => Except.ok (RespEnvelope.mk 200 [] ""
            (Option.none : Option Unit))) 1000 1 Option.none "ASC" =
        (Except.ok Option.none, [req], [maxPageSizeWarning]) ∧
      req.params = some (orgListParams MAX_PAGE_SIZE 1 Option.none "ASC") :=
  claimC6.1 Unit
    (fun _ => Except.ok (RespEnvelope.mk 200 [] "" (Option.none : Option Unit)))
    1000 1 Option.none "ASC" (by decide)

/-- C7 counterexample: `Entities.list` at concrete arguments issues a
single POST whose body (`data=`) is unset — the paging and filter
parameters are not in the request body but in the query params — so
the claim that Entities listing carries the parameters in the request
body is false. -/
theorem claimC7_counterexample :
    (Entities.list
        (fun _ => Except.ok (RespEnvelope.mk 200 [] ""
          (Option.none : Option Unit)))
        "widget" [] 100 1 Option.none Option.none Option.none).2.1.map
      Request.data = [Option.none] ∧
    (Entities.list
        (fun _ => Except.ok (RespEnvelope.mk 200 [] ""
          (Option.none : Option Unit)))
        "widget" [] 100 1 Option.none Option.none Option.none).2.1.map
      Request.params =
      [some (entityListParams 100 1 Option.none Option.none Option.none [])] := by
  constructor <;> rfl

/-- C7 (amended): Entities and DataSources `list`/`list_all` issue POST
requests to a listing sub-path ending in `/list` carrying the paging
and filter parameters (`page_size`, `page`, `order`, `group`, `filter`,
`target_organization_ids`); DataSources carry them in the request body,
while Entities carry them as URL query parameters with no body. -/
theorem claimC7 :
    (∀ (β : Type) (tr : Transport β) (name : String) (orgs : List String)
        (ps page : Nat) (order group fltr : Option String),
      ∀ req ∈ (Entities.list tr name orgs ps page order group fltr).2.1,
        req.method = "POST" ∧
        (∃ pre, req.endpoint = pre ++ "/list") ∧
        (∃ ps2, req.params =
          some (entityListParams ps2 page order group fltr orgs)) ∧
        req.data = Option.none) ∧
    (∀ (β : Type) (tr : Transport β) (name : String) (orgs : List String)
        (ps page : Nat) (order group fltr : Option String),
      ∀ req ∈ (DataSources.list tr name orgs ps page order group fltr).2.1,
        req.method = "POST" ∧
        (∃ pre, req.endpoint = pre ++ "/list") ∧
        (∃ ps2, req.data = some (Body.paramsBody
          (entityListParams ps2 page order group fltr orgs))) ∧
        req.params = Option.none) ∧
    (∀ (α : Type) (pages : List (List α)) (name : String)
        (orgs : List String) (limit : Option Nat)
        (order group fltr : Option String),
      ∀ req ∈ (Entities.list_all name limit orgs order group fltr pages).2,
        req.method = "POST" ∧
        (∃ pre, req.endpoint = pre ++ "/list") ∧
        (∃ pg, req.params = some (entityListParams (initPageSize limit) pg
          order group fltr orgs)) ∧
        req.data = Option.none) ∧
    (∀ (α : Type) (pages : List (List α)) (name : String)
        (orgs : List String) (limit : Option Nat)
        (order group fltr : Option String),
      ∀ req ∈
          (DataSources.list_all name limit orgs order group fltr pages).2,
        req.method = "POST" ∧
        (∃ pre, req.endpoint = pre ++ "/list") ∧
        (∃ pg, req.data = some (Body.paramsBody
          (entityListParams (initPageSize limit) pg order group fltr orgs))) ∧
        req.params = Option.none) := by
  have hent : ∀ name : String,
      "entities/" ++ name ++ "/entityobjects/list" =
        ("entities/" ++ name ++ "/entityobjects") ++ "/list" := by
    intro name
    rw [String.append_assoc ("entities/" ++ name) "/entityobjects" "/list"]
    rfl
  have hds : ∀ name : String,
      "datasources/" ++ name ++ "/dataobjects/list" =
        ("datasources/" ++ name ++ "/dataobjects") ++ "/list" := by
    intro name
    rw [String.append_assoc ("datasources/" ++ name) "/dataobjects" "/list"]
    rfl
  refine ⟨?_, ?_, ?_, ?_⟩
  · intro β tr name orgs ps page order group fltr req hreq
    simp only [Entities.list, List.mem_singleton] at hreq
    subst hreq
    exact ⟨rfl, ⟨_, hent name⟩, ⟨_, rfl⟩, rfl⟩
  · intro β tr name orgs ps page order group fltr req hreq
    simp only [DataSources.list, List.mem_singleton] at hreq
    subst hreq
    exact ⟨rfl, ⟨_, hds name⟩, ⟨_, rfl⟩, rfl⟩
  · intro α pages name orgs limit order group fltr req hreq
    simp only [Entities.list_all, List.mem_map] at hreq
    obtain ⟨pg, _, hpg⟩ := hreq
    subst hpg
    exact ⟨rfl, ⟨_, hent name⟩, ⟨pg, rfl⟩, rfl⟩
  · intro α pages name orgs limit order group fltr req hreq
    simp only [DataSources.list_all, List.mem_map] at hreq
    obtain ⟨pg, _, hpg⟩ := hreq
    subst hpg
    exact ⟨rfl, ⟨_, hds name⟩, ⟨pg, rfl⟩, rfl⟩

/-- C7 witness: the amended claim evaluated on the one request a
concrete `DataSources.list` call issues — the parameters sit in the
request body. -/
theorem claimC7_witness :
    ("POST" : String) = "POST" ∧
    (∃ pre, ("datasources/ds/dataobjects/list" : String) =
      pre ++ "/list") ∧
    (∃ ps2, some (Body.paramsBody
        (entityListParams 100 1 Option.none Option.none Option.none [])) =
      some (Body.paramsBody
        (entityListParams ps2 1 Option.none Option.none Option.none []))) ∧
    (Option.none : Option Params) = Option.none := by
  have h := claimC7.2.1 Unit
    (fun _ => Except.ok (RespEnvelope.mk 200 [] ""
      (Option.none : Option Unit)))
    "ds" [] 100 1 Option.none Option.none Option.none
    (Request.mk "POST" "datasources/ds/dataobjects/list" Option.none
      (some (Body.paramsBody
        (entityListParams 100 1 Option.none Option.none Option.none []))))
    (by simp [DataSources.list]; rfl)
  simpa using h

/-- C8: `Entities.upsert(name, data, truncate)` POSTs to the import
sub-path the body `\x7b"entity_objects": data,
"delete_others": truncate\x7d`, while `DataSources.upsert(name, data)`
POSTs to its import sub-path the bare list `data` as body, which
carries no `delete_others` flag. -/
theorem claimC8 :
    (∀ (β : Type) (tr : Transport β) (name : String) (rows : List Dict)
        (truncate : Bool),
      (∀ row ∈ rows, "organization_id" ∈ dictKeys row) →
      ∃ req, req = Request.mk "POST"
          ("entities/" ++ name ++ "/entityobjects/import") Option.none
          (some (Body.importBody rows truncate)) ∧
        Entities.upsert tr name (PyVal.pylist rows) truncate =
          ((tr req).map (fun env => env.data), [req])) ∧
    (∀ (β : Type) (tr : Transport β) (name : String) (rows : List Dict),
      (∀ row ∈ rows, "organization_id" ∈ dictKeys row ∧
        "timestamp" ∈ dictKeys row) →
      ∃ req, req = Request.mk "POST"
          ("datasources/" ++ name ++ "/dataobjects/import") Option.none
          (some (Body.listBody rows)) ∧
        (∀ (objs : List Dict) (t : Bool),
          req.data ≠ some (Body.importBody objs t)) ∧
        DataSources.upsert tr name (PyVal.pylist rows) =
          ((tr req).map (fun env => env.data), [req])) := by
  constructor
  · intro β tr name rows truncate h
    refine ⟨_, rfl, ?_⟩
    have hval : ValidateEntity.upsert (PyVal.pylist rows) = Except.ok () := by
      simp only [ValidateEntity.upsert]
      have hall : rows.all
          (fun row => decide ("organization_id" ∈ dictKeys row)) = true := by
        simp [List.all_eq_true]
        exact h
      rw [hall]
      simp
    simp [Entities.upsert, hval, PyVal.rows]
  · intro β tr name rows h
    refine ⟨_, rfl, ?_, ?_⟩
    · intro objs t hcon
      simp at hcon
    · have hval : ValidateDataSource.upsert (PyVal.pylist rows) =
          Except.ok () := by
        simp only [ValidateDataSource.upsert]
        have hall : rows.all (fun row =>
            decide ("organization_id" ∈ dictKeys row ∧
              "timestamp" ∈ dictKeys row)) = true := by
          simp [List.all_eq_true]
          intro row hmem
          exact ⟨(h row hmem).1, (h row hmem).2⟩
        rw [hall]
        simp
      simp [DataSources.upsert, hval, PyVal.rows]

/-- C8 witness: concrete upserts — the Entities import body carries
`delete_others := true`, the DataSources import body is the bare
list. -/
theorem claimC8_witness :
    (∃ req, req = Request.mk "POST"
        ("entities/" ++ "widget" ++ "/entityobjects/import") Option.none
        (some (Body.importBody [[("organization_id", "1")]] true)) ∧
      Entities.upsert
          (fun _ => Except.ok (RespEnvelope.mk 200 [] ""
            (Option.none : Option Unit)))
          "widget" (PyVal.pylist [[("organization_id", "1")]]) true =
        ((Except.ok (RespEnvelope.mk 200 [] ""
            (Option.none : Option Unit))).map (fun env => env.data),
          [req])) ∧
    (∃ req, req = Request.mk "POST"
        ("datasources/" ++ "ds" ++ "/dataobjects/import") Option.none
        (some (Body.listBody [[("organization_id", "1"), ("timestamp", "t")]])) ∧
      (∀ (objs : List Dict) (t : Bool),
        req.data ≠ some (Body.importBody objs t)) ∧
      DataSources.upsert
          (fun _ => Except.ok (RespEnvelope.mk 200 [] ""
            (Option.none : Option Unit)))
          "ds" (PyVal.pylist [[("organization_id", "1"), ("timestamp", "t")]]) =
        ((Except.ok (RespEnvelope.mk 200 [] ""
            (Option.none : Option Unit))).map (fun env => env.data),
          [req])) :=
  ⟨claimC8.1 Unit
      (fun _ => Except.ok (RespEnvelope.mk 200 [] ""
        (Option.none : Option Unit)))
      "widget" [[("organization_id", "1")]] true (by decide),
   claimC8.2 Unit
      (fun _ => Except.ok (RespEnvelope.mk 200 [] ""
        (Option.none : Option Unit)))
      "ds" [[("organization_id", "1"), ("timestamp", "t")]] (by decide)⟩

/-- C9: `Entities.create("widget", \x7b"organization_id": "123456",
"name": "X"\x7d)` issues exactly one POST to
`entities/widget/entityobjects` with exactly that dict as body, and
returns the transport's decoded payload unchanged. -/
theorem claimC9 :
    ∀ (β : Type) (tr : Transport β),
      ∃ req, req = Request.mk "POST" "entities/widget/entityobjects"
          Option.none
          (some (Body.dictBody [("organization_id", "123456"), ("name", "X")])) ∧
        Entities.create tr "widget"
            [("organization_id", "123456"), ("name", "X")] =
          ((tr req).map (fun env => env.data), [req]) := by
  intro β tr
  exact ⟨_, rfl, rfl⟩

end BoardsOnFire
